import Mathlib

set_option linter.unusedVariables false

/-!
Shallow embedding of the webhooky matching and dispatch engine
(src/webhooky/bus.py, events.py, models.py, registry.py) and proofs about it.

Modelling conventions:
  * payloads are the dicts of validated pydantic payload models, embedded as
    association lists from field names to JSON-like values; only stringness of
    a value matters to the embedded code, so values are `str s` or `other`;
  * fallible Python code is embedded as `Except`-returning functions; an
    exception value carries its `str()` message, and for schema validation also
    whether it is an instance of the classes `WebhookEventBase.matches` catches;
  * wall-clock fields (timestamps, processing times) are omitted: no embedded
    claim mentions them;
  * the global singleton `event_registry` consulted by `_match_patterns` is
    threaded through the `Bus` record explicitly, and the cumulative metrics
    object is threaded through `dispatchRaw` explicitly.
-/

namespace Webhooky

/-- A JSON-like payload field value: the embedded code only ever asks whether a
value is a (non-empty) string, so non-string values collapse to `other`. -/
inductive Val where
  | str (s : String)
  | other
  deriving DecidableEq, Repr

/-- The dict of the validated payload model (`payload.model_dump()`), as an
association list in key order. -/
abbrev Payload := List (String × Val)

/-- Request headers, as an association list. -/
abbrev Headers := List (String × String)

/-- A Python exception value: its `str()` message, and whether it is an
instance of the exception classes caught by `WebhookEventBase.matches`
(`PydanticValidationError`, `ValueError`, `TypeError`; events.py 57). -/
structure Exc where
  msg : String
  catchable : Bool
  deriving DecidableEq, Repr

/-- Modelled from the Python runtime: `asyncio.wait_for` raises a
`TimeoutError` constructed with no arguments, and `str()` of such an exception
is the empty string. This is the value `run_handler` stores (bus.py 252). -/
def asyncioTimeoutStr : String := ""

/-- A trigger method declared on an event class through the `on_activity` or
`on_any` decorators (events.py 244-259): its attribute name, the activity set
the decorator stored in `_webhook_triggers`, and whether invoking it raises. -/
structure TriggerMethod where
  name : String
  activities : List String
  fails : Bool
  deriving DecidableEq, Repr

/-- An event instance (`WebhookEventBase`, events.py 25): its class name, the
dict of its validated payload, and the trigger-decorated callables of its
class in the order `inspect.getmembers` yields them (sorted by name).
Members without the `_webhook_triggers` attribute contribute nothing in the
source loop and are not modelled. -/
structure EventInstance where
  className : String
  payloadFields : Payload
  triggerMethods : List TriggerMethod
  deriving DecidableEq, Repr

/-- The activity field names probed by `get_activity`, in source order
(events.py 122). -/
def activityFieldNames : List String :=
  ["action", "event", "type", "activity_type", "event_type", "activityType", "eventType"]

/-- `payload_dict.get(field)` (events.py 126). -/
def lookupField (p : Payload) (k : String) : Option Val :=
  (p.find? (fun kv => kv.1 == k)).map (fun kv => kv.2)

/-- Python `str.lower()`: every character lowercased. -/
def pyLower (s : String) : String :=
  String.mk (s.data.map Char.toLower)

/-- Whether the first character list begins the second. -/
def charsBeginWith : List Char → List Char → Bool
  | [], _ => true
  | _ :: _, [] => false
  | a :: as, b :: bs => a == b && charsBeginWith as bs

/-- Whether the needle occurs inside the hay, at any position. -/
def charsContain (needle : List Char) : List Char → Bool
  | [] => charsBeginWith needle []
  | c :: rest => charsBeginWith needle (c :: rest) || charsContain needle rest

/-- Python substring membership, `needle in hay`. -/
def pyContains (hay needle : String) : Bool :=
  charsContain needle.data hay.data

/-- The field scan of `get_activity` (events.py 122-128): the first probed
field whose value is a truthy (non-empty) string. -/
def firstActivityField (p : Payload) : List String → Option String
  | [] => none
  | f :: rest =>
    match lookupField p f with
    | some (Val.str s) => if s = "" then firstActivityField p rest else some s
    | _ => firstActivityField p rest

/-- `WebhookEventBase.get_activity` (events.py 112-130): the first non-empty
string among the probed payload fields, else the class name lowercased. The
Python return annotation is `Optional[str]`, mirrored by the `Option`. -/
def getActivity (ev : EventInstance) : Option String :=
  match firstActivityField ev.payloadFields activityFieldNames with
  | some s => some s
  | none => some (pyLower ev.className)

/-- `WebhookEventBase.matches` (events.py 47-58): run `from_raw` inside a
`try`; `True` on success, `False` when one of the caught exception classes
escapes, and any other exception propagates. -/
def matchesBase (fromRaw : Payload → Headers → Except Exc EventInstance)
    (raw : Payload) (hd : Headers) : Except Exc Bool :=
  match fromRaw raw hd with
  | Except.ok _ => Except.ok true
  | Except.error e => if e.catchable then Except.ok false else Except.error e

/-- A registered event class as the dispatch path sees it
(`event_registry.get_event_classes()`, registry.py 62-64): its name, its
(possibly overridden) `matches` classmethod and its `from_raw` constructor,
each an arbitrary computation that may raise. -/
structure Schema where
  name : String
  matchesFn : Payload → Headers → Except Exc Bool
  fromRaw : Payload → Headers → Except Exc EventInstance

/-- `GenericWebhookEvent.from_raw` (events.py 230-236): `_transform_raw_data`
passes the raw dict through, `AnyPayload` (extra = allow) keeps every field,
and the class declares no trigger methods. Construction cannot fail. -/
def genericFromRaw (raw : Payload) (hd : Headers) : EventInstance :=
  { className := "GenericWebhookEvent", payloadFields := raw, triggerMethods := [] }

/-- The `GenericWebhookEvent.matches` override (events.py 238-241): always
`True`, for any payload and headers. -/
def genericMatches (raw : Payload) (hd : Headers) : Except Exc Bool :=
  Except.ok true

/-- What a registered handler does when invoked on an event: completes
normally, raises an exception with the given `str()` message, or exceeds
`timeout_seconds`. -/
inductive HandlerBehavior where
  | ok
  | exc (msg : String)
  | timeout
  deriving DecidableEq, Repr

/-- A registered handler: its `__name__` and its behavior when invoked. -/
structure Handler where
  name : String
  behavior : HandlerBehavior
  deriving DecidableEq, Repr

/-- The per-handler outcome dict built by `run_handler` (bus.py 239-253): the
handler name, the success flag and, for failures only, the `error` value
`str(e)`. The `processing_time` float of the success dict is omitted. -/
structure HandlerResult where
  handler : String
  success : Bool
  error : Option String
  deriving DecidableEq, Repr

/-- `ProcessingResult` (models.py 22-39), restricted to the fields the
dispatch logic writes; `timestamp` and the float `processing_time` are
omitted. `success` defaults to `False` (models.py 28). -/
structure ProcessingResult where
  success : Bool := false
  raw_data : Option Payload := none
  headers : Headers := []
  matched_patterns : List String := []
  handler_results : List HandlerResult := []
  triggered_methods : List String := []
  errors : List String := []
  deriving DecidableEq, Repr

/-- The `EventBusMetrics` counters (models.py 60-82); the float timing fields
and computed rates are omitted. -/
structure Metrics where
  total_events : Nat := 0
  successful_events : Nat := 0
  failed_events : Nat := 0
  pattern_matches : Nat := 0
  generic_fallbacks : Nat := 0
  handler_executions : Nat := 0
  handler_failures : Nat := 0
  handler_timeouts : Nat := 0
  deriving DecidableEq, Repr

/-- The `EventBus` state the dispatch path reads (bus.py 21-50): the
configuration flags and the three handler tables, plus the registered event
classes in registration order (the global `event_registry` threaded
explicitly). Pattern handlers are keyed by class name, which the registry
keeps unique (registry.py 32-36). -/
structure Bus where
  swallowExceptions : Bool := true
  enableMetrics : Bool := true
  patternHandlers : List (String × List Handler) := []
  activityHandlers : List (String × List Handler) := []
  anyHandlers : List Handler := []
  registry : List Schema := []

/-- The body of one `_match_patterns` loop iteration (bus.py 185-192): the
`try` block runs `matches` and then `from_raw`; an exception from either, or a
`False` predicate, yields no instance. -/
def attemptMatch (cls : Schema) (raw : Payload) (hd : Headers) : Option EventInstance :=
  match cls.matchesFn raw hd with
  | Except.ok true =>
    match cls.fromRaw raw hd with
    | Except.ok ev => some ev
    | Except.error _ => none
  | _ => none

/-- `EventBus._match_patterns` (bus.py 173-194): every registered class is
tried in registration order; a class whose predicate raises or returns
`False`, or whose constructor raises, contributes nothing (the exception is
caught and only logged at debug level) and the loop continues. -/
def matchPatterns : List Schema → Payload → Headers → List EventInstance
  | [], _, _ => []
  | cls :: rest, raw, hd =>
    match attemptMatch cls raw hd with
    | some ev => ev :: matchPatterns rest raw hd
    | none => matchPatterns rest raw hd

/-- The per-class counters of `EventRegistry._validation_stats`
(registry.py 43-48). -/
structure ClassStats where
  match_attempts : Nat := 0
  successful_matches : Nat := 0
  validation_errors : Nat := 0
  creation_count : Nat := 0
  deriving DecidableEq, Repr

/-- The registry state visible from the dispatch path: the registered classes
and the validation statistics table. -/
structure RegistryState where
  classes : List Schema
  stats : List (String × ClassStats)

/-- The match pass as the dispatch path runs it, with the registry state
threaded: `_match_patterns` only calls `event_registry.get_event_classes()`
(bus.py 185) and performs no write to `_validation_stats`, so the registry
state passes through unchanged. -/
def matchPatternsSt (reg : RegistryState) (raw : Payload) (hd : Headers) :
    List EventInstance × RegistryState :=
  (matchPatterns reg.classes raw hd, reg)

/-- The `validation_errors` counter recorded for a class name. -/
def validationErrorCount (reg : RegistryState) (cn : String) : Nat :=
  match reg.stats.find? (fun kv => kv.1 == cn) with
  | some kv => kv.2.validation_errors
  | none => 0

/-- Whether a trigger method fires for the given activity (events.py 205-215):
the member name is public (no underscore), the stored trigger set is truthy
(non-empty), and it contains the activity or the string "any". -/
def triggerFires (activity : Option String) (m : TriggerMethod) : Bool :=
  !(charsBeginWith "_".data m.name.data) && !m.activities.isEmpty &&
    ((match activity with
      | some s => m.activities.contains s
      | none => false) || m.activities.contains "any")

/-- The member walk of `process_triggers` (events.py 205-227) over the trigger
methods of the class: each firing trigger is invoked sequentially, a raising
invocation is caught and only logged, and `event_type + "." + name` is
appended for each invocation that completed. -/
def processTriggersList (cn : String) (activity : Option String) :
    List TriggerMethod → List String
  | [] => []
  | m :: rest =>
    if triggerFires activity m then
      if m.fails then processTriggersList cn activity rest
      else (cn ++ "." ++ m.name) :: processTriggersList cn activity rest
    else processTriggersList cn activity rest

/-- `WebhookEventBase.process_triggers` (events.py 196-227); `event_type` is
the class name (events.py 132-136). -/
def processTriggers (ev : EventInstance) : List String :=
  processTriggersList ev.className (getActivity ev) ev.triggerMethods

/-- Handler-table lookup with extend-if-present semantics (bus.py 208-214):
the list registered under a key, empty when the key is absent. -/
def lookupHandlers (tbl : List (String × List Handler)) (k : String) : List Handler :=
  match tbl.find? (fun kv => kv.1 == k) with
  | some kv => kv.2
  | none => []

/-- Handler collection in `_process_event` (bus.py 203-217): pattern handlers
for the event class, then activity handlers when the activity string is truthy
and registered, then every catch-all handler. -/
def collectHandlers (bus : Bus) (ev : EventInstance) : List Handler :=
  lookupHandlers bus.patternHandlers ev.className ++
    (match getActivity ev with
     | some s => if s = "" then [] else lookupHandlers bus.activityHandlers s
     | none => []) ++
    bus.anyHandlers

/-- `run_handler` (bus.py 224-253): a completed handler yields its success
dict; a raising or timed-out handler is caught by the `except` block,
re-raised when the bus does not swallow exceptions, and otherwise reported as
a failure dict whose `error` value is `str(e)`. -/
def runHandler (swallow : Bool) (h : Handler) : Except String HandlerResult :=
  match h.behavior with
  | HandlerBehavior.ok =>
    Except.ok { handler := h.name, success := true, error := none }
  | HandlerBehavior.exc m =>
    if swallow then Except.ok { handler := h.name, success := false, error := some m }
    else Except.error m
  | HandlerBehavior.timeout =>
    if swallow then
      Except.ok { handler := h.name, success := false, error := some asyncioTimeoutStr }
    else Except.error asyncioTimeoutStr

/-- The gather over the `run_handler` tasks (bus.py 256-257): with
`return_exceptions` (the swallow flag) every task yields its dict; otherwise
the first raised exception propagates. -/
def runHandlers (swallow : Bool) : List Handler → Except String (List HandlerResult)
  | [] => Except.ok []
  | h :: rest =>
    match runHandler swallow h with
    | Except.error e => Except.error e
    | Except.ok r =>
      match runHandlers swallow rest with
      | Except.error e => Except.error e
      | Except.ok rs => Except.ok (r :: rs)

/-- The error entries collected from the outcome dicts (bus.py 260-264): for
each unsuccessful dict its `error` value, with the default string used when
the key is missing. -/
def handlerErrors (rs : List HandlerResult) : List String :=
  rs.filterMap (fun r =>
    if r.success then none
    else some (r.error.getD "Unknown handler error"))

/-- `EventBus._process_event` (bus.py 196-277). The early return for an empty
handler set (bus.py 219-221) returns the freshly built result, whose `success`
field still holds the `ProcessingResult` default `False`; on every other path
`success` is recomputed as `errors` being empty (bus.py 276). The `try` around
`process_triggers` (bus.py 269-274) cannot fire in the model, where trigger
failures are caught inside the walk itself. -/
def processEvent (bus : Bus) (ev : EventInstance) : Except String ProcessingResult :=
  let base : ProcessingResult := { matched_patterns := [ev.className] }
  let handlers := collectHandlers bus ev
  if handlers.isEmpty then Except.ok base
  else
    match runHandlers bus.swallowExceptions handlers with
    | Except.error e => Except.error e
    | Except.ok hrs =>
      let errs := handlerErrors hrs
      Except.ok { base with
        handler_results := hrs
        errors := errs
        triggered_methods := processTriggers ev
        success := errs.isEmpty }

/-- `EventBus.dispatch_event` (bus.py 169-171): process the given instance
directly, with no matching, no metrics update and no top-level recovery. -/
def dispatchEvent (bus : Bus) (ev : EventInstance) : Except String ProcessingResult :=
  processEvent bus ev

/-- The per-event loop of `dispatch_raw` (bus.py 141-145): each matched event
is processed and its handler results, triggered methods and errors are
appended to the top-level result; a propagating exception stops the loop with
the partially merged result. -/
def dispatchLoop (bus : Bus) : List EventInstance → ProcessingResult →
    ProcessingResult × Option String
  | [], acc => (acc, none)
  | ev :: rest, acc =>
    match processEvent bus ev with
    | Except.error e => (acc, some e)
    | Except.ok r =>
      dispatchLoop bus rest { acc with
        handler_results := acc.handler_results ++ r.handler_results
        triggered_methods := acc.triggered_methods ++ r.triggered_methods
        errors := acc.errors ++ r.errors }

/-- The instances `dispatch_raw` processes and the pattern names it records
(bus.py 131-138): the match pass result, or the single generic fallback
instance and the literal `["GenericWebhookEvent"]` when it is empty. -/
def matchedEvents (bus : Bus) (raw : Payload) (hd : Headers) :
    List EventInstance × List String :=
  let matched := matchPatterns bus.registry raw hd
  if matched.isEmpty then
    ([genericFromRaw raw hd], ["GenericWebhookEvent"])
  else
    (matched, matched.map (fun ev => ev.className))

/-- The result record and metrics a `dispatch_raw` call returns. -/
structure DispatchOutput where
  result : ProcessingResult
  metrics : Metrics
  deriving DecidableEq, Repr

/-- `EventBus.dispatch_raw` (bus.py 105-167), with metrics threaded
explicitly. The success path (bus.py 147-156) adds the matched-instance count
to `successful_events`, adds one failed event when the merged error list is
non-empty, and recomputes `success` as `errors` being empty. The `except`
block (bus.py 158-165) appends the dispatch failure, marks the result failed,
counts one failed event, and re-raises when the bus does not swallow
exceptions; in the model only a handler re-raise can reach it. -/
def dispatchRaw (bus : Bus) (m : Metrics) (raw : Payload) (hd : Headers) :
    Except String DispatchOutput :=
  let m1 := if bus.enableMetrics then { m with total_events := m.total_events + 1 } else m
  let events := (matchedEvents bus raw hd).1
  let init : ProcessingResult :=
    { raw_data := some raw, headers := hd, matched_patterns := (matchedEvents bus raw hd).2 }
  match dispatchLoop bus events init with
  | (res, none) =>
    let m2 :=
      if bus.enableMetrics then
        { m1 with
          successful_events := m1.successful_events + events.length
          failed_events := m1.failed_events + (if res.errors.isEmpty then 0 else 1) }
      else m1
    Except.ok { result := { res with success := res.errors.isEmpty }, metrics := m2 }
  | (res, some e) =>
    let m2 := if bus.enableMetrics then { m1 with failed_events := m1.failed_events + 1 } else m1
    if bus.swallowExceptions then
      Except.ok
        { result := { res with errors := res.errors ++ ["Dispatch failed: " ++ e], success := false }
          metrics := m2 }
    else Except.error e

/-- The dict `run_handler` yields for a handler when exceptions are
swallowed. -/
def handlerDict (h : Handler) : HandlerResult :=
  match h.behavior with
  | HandlerBehavior.ok => { handler := h.name, success := true, error := none }
  | HandlerBehavior.exc m => { handler := h.name, success := false, error := some m }
  | HandlerBehavior.timeout =>
    { handler := h.name, success := false, error := some asyncioTimeoutStr }

/-- The error entry a handler contributes to the result, if any: the `str()`
of its exception, or of the no-argument timeout exception. -/
def failEntry (h : Handler) : Option String :=
  match h.behavior with
  | HandlerBehavior.ok => none
  | HandlerBehavior.exc m => some m
  | HandlerBehavior.timeout => some asyncioTimeoutStr

/-- A schema whose predicate raises on every payload. -/
def schemaThrowy : Schema :=
  { name := "Throwy"
    matchesFn := fun _ _ => Except.error { msg := "kaboom", catchable := true }
    fromRaw := fun _ _ => Except.error { msg := "kaboom", catchable := true } }

/-- A registry holding only `schemaThrowy`, with the fresh statistics
`register_event_class` initializes (registry.py 43-48). -/
def regThrowy : RegistryState :=
  { classes := [schemaThrowy]
    stats := [("Throwy", { })] }

/-- A schema that accepts every payload and builds the instance directly. -/
def schemaAlpha : Schema :=
  { name := "AlphaEvent"
    matchesFn := fun _ _ => Except.ok true
    fromRaw := fun raw _ =>
      Except.ok { className := "AlphaEvent", payloadFields := raw, triggerMethods := [] } }

/-- A second always-accepting schema. -/
def schemaBeta : Schema :=
  { name := "BetaEvent"
    matchesFn := fun _ _ => Except.ok true
    fromRaw := fun raw _ =>
      Except.ok { className := "BetaEvent", payloadFields := raw, triggerMethods := [] } }

/-- A bus with two always-matching schemas and one raising catch-all
handler. -/
def busTwoMatch : Bus :=
  { registry := [schemaAlpha, schemaBeta]
    anyHandlers := [{ name := "failing_handler", behavior := HandlerBehavior.exc "boom" }] }

/-- The output of dispatching one unmatched payload on a fresh default bus. -/
def sampleOut : DispatchOutput :=
  { result :=
      { success := true
        raw_data := some [("a", Val.other)]
        matched_patterns := ["GenericWebhookEvent"] }
    metrics := { total_events := 1, successful_events := 1 } }

/-- An instance whose class declares one trigger on a private-named method. -/
def evHiddenTrigger : EventInstance :=
  { className := "NoteEvent"
    payloadFields := []
    triggerMethods := [{ name := "_hidden", activities := ["any"], fails := false }] }

/-- An instance with a failing trigger followed by a succeeding one, both
registered for its activity. -/
def evTriggers : EventInstance :=
  { className := "MemoEvent"
    payloadFields := [("action", Val.str "create")]
    triggerMethods :=
      [{ name := "bad_trigger", activities := ["create"], fails := true },
       { name := "good_trigger", activities := ["create"], fails := false }] }

/-- A non-swallowing bus with a single raising catch-all handler. -/
def busNoSwallow : Bus :=
  { swallowExceptions := false
    anyHandlers := [{ name := "bad_handler", behavior := HandlerBehavior.exc "boom" }] }

/-- A swallowing bus with a raising catch-all handler and a completing one. -/
def busSwallow : Bus :=
  { anyHandlers :=
      [{ name := "bad_handler", behavior := HandlerBehavior.exc "kaput" },
       { name := "good_handler", behavior := HandlerBehavior.ok }] }

/-- With swallowed exceptions `run_handler` always returns an outcome dict. -/
theorem runHandler_swallow (h : Handler) :
    runHandler true h = Except.ok (handlerDict h) := by
  cases hb : h.behavior <;> simp [runHandler, handlerDict, hb]

/-- With swallowed exceptions the gather yields exactly one dict per handler,
in order. -/
theorem runHandlers_swallow (hs : List Handler) :
    runHandlers true hs = Except.ok (hs.map handlerDict) := by
  induction hs with
  | nil => rfl
  | cons h rest ih => simp [runHandlers, runHandler_swallow, ih]

/-- The error entries of the outcome dicts are the fail entries of the
handlers, in order. -/
theorem handlerErrors_dicts (hs : List Handler) :
    handlerErrors (hs.map handlerDict) = hs.filterMap failEntry := by
  induction hs with
  | nil => rfl
  | cons h rest ih =>
    cases hb : h.behavior <;>
      simp [handlerErrors, handlerDict, failEntry, hb, List.filterMap_cons,
        handlerErrors] at ih ⊢ <;> exact ih

/-- A handler that completes yields its success dict whether or not the bus
swallows exceptions. -/
theorem runHandler_ok_behavior (swallow : Bool) (h : Handler)
    (hb : h.behavior = HandlerBehavior.ok) :
    runHandler swallow h = Except.ok (handlerDict h) := by
  simp [runHandler, handlerDict, hb]

/-- Without swallowing, the first failing handler aborts the gather with its
exception. -/
theorem runHandlers_first_error (pre : List Handler) (bad : Handler)
    (post : List Handler) (em : String)
    (hpre : ∀ h ∈ pre, h.behavior = HandlerBehavior.ok)
    (hbad : failEntry bad = some em) :
    runHandlers false (pre ++ bad :: post) = Except.error em := by
  induction pre with
  | nil =>
    cases hb : bad.behavior <;> simp [failEntry, hb] at hbad <;>
      simp [runHandlers, runHandler, hb, hbad]
  | cons h rest ih =>
    have hh := hpre h (by simp)
    have hrest := ih (fun x hx => hpre x (by simp [hx]))
    simp [runHandlers, runHandler_ok_behavior false h hh, hrest, handlerDict, hh]

/-- `_process_event` on an event whose assembled handler set is empty: the
early return (bus.py 219-221). -/
theorem processEvent_no_handlers (bus : Bus) (ev : EventInstance)
    (h : collectHandlers bus ev = []) :
    processEvent bus ev = Except.ok { matched_patterns := [ev.className] } := by
  simp [processEvent, h]

/-- `_process_event` with swallowed exceptions and a non-empty handler set. -/
theorem processEvent_swallow (bus : Bus) (ev : EventInstance)
    (hs : bus.swallowExceptions = true) (hne : collectHandlers bus ev ≠ []) :
    processEvent bus ev = Except.ok
      { matched_patterns := [ev.className]
        handler_results := (collectHandlers bus ev).map handlerDict
        errors := (collectHandlers bus ev).filterMap failEntry
        triggered_methods := processTriggers ev
        success := ((collectHandlers bus ev).filterMap failEntry).isEmpty } := by
  simp [processEvent, hs, runHandlers_swallow, handlerErrors_dicts,
    List.isEmpty_iff, hne]

/-- Handlers that all complete yield their dicts whether or not the bus
swallows exceptions. -/
theorem runHandlers_all_ok (swallow : Bool) (hs : List Handler)
    (h : ∀ x ∈ hs, x.behavior = HandlerBehavior.ok) :
    runHandlers swallow hs = Except.ok (hs.map handlerDict) := by
  induction hs with
  | nil => rfl
  | cons x rest ih =>
    have hx := h x (by simp)
    have hr := ih (fun y hy => h y (by simp [hy]))
    simp [runHandlers, runHandler_ok_behavior swallow x hx, hr]

/-- Handlers that all complete contribute no fail entries. -/
theorem filterMap_failEntry_all_ok (hs : List Handler)
    (h : ∀ x ∈ hs, x.behavior = HandlerBehavior.ok) :
    hs.filterMap failEntry = [] := by
  rw [List.filterMap_eq_nil_iff]
  intro x hx
  simp [failEntry, h x hx]

/-- `_process_event` on an event whose handlers all complete returns an
error-free result. -/
theorem processEvent_all_ok (bus : Bus) (ev : EventInstance)
    (h : ∀ x ∈ collectHandlers bus ev, x.behavior = HandlerBehavior.ok) :
    ∃ r, processEvent bus ev = Except.ok r ∧ r.errors = [] := by
  by_cases hch : collectHandlers bus ev = []
  · exact ⟨_, processEvent_no_handlers bus ev hch, rfl⟩
  · have herr : handlerErrors ((collectHandlers bus ev).map handlerDict) = [] := by
      rw [handlerErrors_dicts]
      exact filterMap_failEntry_all_ok _ h
    refine ⟨{ matched_patterns := [ev.className]
              handler_results := (collectHandlers bus ev).map handlerDict
              errors := handlerErrors ((collectHandlers bus ev).map handlerDict)
              triggered_methods := processTriggers ev
              success :=
                (handlerErrors ((collectHandlers bus ev).map handlerDict)).isEmpty },
          ?_, herr⟩
    simp [processEvent, List.isEmpty_iff, hch,
      runHandlers_all_ok bus.swallowExceptions _ h]

/-- A `_process_event` call can only raise when the bus does not swallow
exceptions. -/
theorem processEvent_error_not_swallow (bus : Bus) (ev : EventInstance) (e : String)
    (h : processEvent bus ev = Except.error e) : bus.swallowExceptions = false := by
  cases hsw : bus.swallowExceptions
  · rfl
  · exfalso
    by_cases hch : collectHandlers bus ev = []
    · rw [processEvent_no_handlers bus ev hch] at h
      cases h
    · rw [processEvent_swallow bus ev hsw hch] at h
      cases h

/-- The per-event loop of dispatch_raw can only abort when the bus does not
swallow exceptions. -/
theorem dispatchLoop_error_not_swallow (bus : Bus) (events : List EventInstance) :
    ∀ acc res e, dispatchLoop bus events acc = (res, some e) →
      bus.swallowExceptions = false := by
  induction events with
  | nil => intro acc res e h; cases h
  | cons ev rest ih =>
    intro acc res e h
    cases hpe : processEvent bus ev with
    | error e2 => exact processEvent_error_not_swallow bus ev e2 hpe
    | ok r =>
      simp only [dispatchLoop, hpe] at h
      exact ih _ res e h

/-- The first non-empty-string field value found by the activity scan is
non-empty. -/
theorem firstActivityField_nonempty (p : Payload) :
    ∀ fs v, firstActivityField p fs = some v → v ≠ "" := by
  intro fs
  induction fs with
  | nil => intro v hv; cases hv
  | cons f rest ih =>
    intro v hv
    rw [firstActivityField] at hv
    rcases hl : lookupField p f with _ | val
    · simp only [hl] at hv
      exact ih v hv
    · cases val with
      | str s =>
        simp only [hl] at hv
        by_cases hs : s = ""
        · rw [if_pos hs] at hv
          exact ih v hv
        · rw [if_neg hs] at hv
          cases hv
          exact hs
      | other =>
        simp only [hl] at hv
        exact ih v hv

/-- Lowercasing keeps a string non-empty. -/
theorem pyLower_ne_empty (s : String) (h : s ≠ "") : pyLower s ≠ "" := by
  cases s with
  | mk data =>
    intro hc
    have hdata : data.map Char.toLower = [] := congrArg String.data hc
    have hnil : data = [] := List.map_eq_nil_iff.mp hdata
    subst hnil
    exact h rfl

/-- Every firing, non-failing trigger contributes its qualified name to the
walk result, independent of its siblings. -/
theorem processTriggersList_mem (cn : String) (a : Option String)
    (ms : List TriggerMethod) (m : TriggerMethod) (hm : m ∈ ms)
    (hf : triggerFires a m = true) (hnf : m.fails = false) :
    (cn ++ "." ++ m.name) ∈ processTriggersList cn a ms := by
  induction ms with
  | nil => cases hm
  | cons x rest ih =>
    rw [processTriggersList]
    cases hm with
    | head =>
      rw [if_pos hf, if_neg (by simp [hnf])]
      exact List.mem_cons_self _ _
    | tail _ hm2 =>
      have hrest := ih hm2
      by_cases hfx : triggerFires a x = true
      · rw [if_pos hfx]
        by_cases hfl : x.fails = true
        · rw [if_pos hfl]
          exact hrest
        · rw [if_neg hfl]
          exact List.mem_cons_of_mem _ hrest
      · rw [if_neg hfx]
        exact hrest

/-- C1: the claim states that every ProcessingResult returned by dispatch_raw
or dispatch_event — including the per-instance result for an event with no
applicable handlers — has success true iff its errors list is empty. The code
violates this at the empty-handler early return (bus.py 219-221): the returned
result keeps the field default success = False next to an empty errors list,
so dispatch_event yields errors = [] with success = false. -/
theorem c1_success_iff_no_errors_fails_on_empty_handlers :
    dispatchEvent { }
        { className := "OrderCreated", payloadFields := [], triggerMethods := [] }
      = Except.ok { matched_patterns := ["OrderCreated"] } ∧
    ¬ ((({ matched_patterns := ["OrderCreated"] } : ProcessingResult).success = true)
        ↔ ({ matched_patterns := ["OrderCreated"] } : ProcessingResult).errors = []) := by
  exact ⟨rfl, by decide⟩

/-- C3: the claim states that an event whose assembled handler set is empty
yields an empty-but-successful per-instance result. The code does return an
empty result immediately, but its success flag is the ProcessingResult default
False, never set on that path (bus.py 219-221, models.py 28). -/
theorem c3_empty_handler_result_is_not_successful :
    dispatchEvent { }
        { className := "PushEvent", payloadFields := [("action", Val.str "push")],
          triggerMethods := [] }
      = Except.ok { matched_patterns := ["PushEvent"] } ∧
    ({ matched_patterns := ["PushEvent"] } : ProcessingResult).handler_results = [] ∧
    ({ matched_patterns := ["PushEvent"] } : ProcessingResult).errors = [] ∧
    ({ matched_patterns := ["PushEvent"] } : ProcessingResult).success = false := by
  exact ⟨rfl, rfl, rfl, rfl⟩

/-- C4: the claim states that a lone timed-out handler contributes exactly one
error entry containing "timeout" while siblings complete. On the code, the
sibling outcome is indeed unaffected and exactly one error entry appears, but
the entry is str() of the no-argument TimeoutError — the empty string — which
does not contain "timeout" (bus.py 252, 264). -/
theorem c4_timeout_entry_is_empty_string :
    dispatchRaw
        { anyHandlers :=
            [{ name := "slow_handler", behavior := HandlerBehavior.timeout },
             { name := "fast_handler", behavior := HandlerBehavior.ok }] }
        { } [("test", Val.str "data")] []
      = Except.ok
          { result :=
              { success := false
                raw_data := some [("test", Val.str "data")]
                matched_patterns := ["GenericWebhookEvent"]
                handler_results :=
                  [{ handler := "slow_handler", success := false, error := some "" },
                   { handler := "fast_handler", success := true, error := none }]
                errors := [""] }
            metrics := { total_events := 1, successful_events := 1, failed_events := 1 } } ∧
    pyContains asyncioTimeoutStr "timeout" = false := by
  exact ⟨rfl, rfl⟩

/-- C2 counterexample: with no registered schema accepting the payload and no
failing handler, dispatch_raw records the fallback pattern name
"GenericWebhookEvent" (bus.py 138) — not "Generic" as the claim states. -/
theorem c2_counterexample_fallback_name :
    ∃ out,
      dispatchRaw { } { } [("unexpected", Val.str "data")] [] = Except.ok out ∧
      out.result.matched_patterns = ["GenericWebhookEvent"] ∧
      out.result.matched_patterns ≠ ["Generic"] := by
  refine ⟨_, rfl, rfl, by decide⟩

/-- `_process_event` propagates the exception of a non-swallowed handler
gather. -/
theorem processEvent_run_error (bus : Bus) (ev : EventInstance) (e : String)
    (hne : collectHandlers bus ev ≠ [])
    (hrun : runHandlers bus.swallowExceptions (collectHandlers bus ev) = Except.error e) :
    processEvent bus ev = Except.error e := by
  simp [processEvent, List.isEmpty_iff, hne, hrun]

/-- Every name in the trigger-walk result comes from a firing, non-failing
trigger of the walked list. -/
theorem processTriggersList_mem_rev (cn : String) (a : Option String) :
    ∀ (ms : List TriggerMethod) (s : String), s ∈ processTriggersList cn a ms →
      ∃ m, m ∈ ms ∧ triggerFires a m = true ∧ m.fails = false ∧
        s = cn ++ "." ++ m.name := by
  intro ms
  induction ms with
  | nil => intro s hs; cases hs
  | cons x rest ih =>
    intro s hs
    rw [processTriggersList] at hs
    by_cases hfx : triggerFires a x = true
    · rw [if_pos hfx] at hs
      by_cases hfl : x.fails = true
      · rw [if_pos hfl] at hs
        obtain ⟨m, hm, h1, h2, h3⟩ := ih s hs
        exact ⟨m, List.mem_cons_of_mem _ hm, h1, h2, h3⟩
      · rw [if_neg hfl] at hs
        have hxf : x.fails = false := by
          cases hfails : x.fails
          · rfl
          · exact absurd hfails hfl
        cases hs with
        | head => exact ⟨x, List.mem_cons_self _ _, hfx, hxf, rfl⟩
        | tail _ hs2 =>
          obtain ⟨m, hm, h1, h2, h3⟩ := ih s hs2
          exact ⟨m, List.mem_cons_of_mem _ hm, h1, h2, h3⟩
    · rw [if_neg hfx] at hs
      obtain ⟨m, hm, h1, h2, h3⟩ := ih s hs
      exact ⟨m, List.mem_cons_of_mem _ hm, h1, h2, h3⟩

/-- C2 (amended): when no registered schema accepts the payload, dispatch_raw
falls back to a single generic instance whose predicate trivially accepts
everything, records matched_patterns = ["GenericWebhookEvent"], and — when no
collected handler fails — returns success with zero errors. -/
theorem c2_generic_fallback (bus : Bus) (m : Metrics) (raw : Payload) (hd : Headers)
    (hnone : matchPatterns bus.registry raw hd = [])
    (hok : ∀ h ∈ collectHandlers bus (genericFromRaw raw hd),
      h.behavior = HandlerBehavior.ok) :
    genericMatches raw hd = Except.ok true ∧
    ∃ out, dispatchRaw bus m raw hd = Except.ok out ∧
      out.result.matched_patterns = ["GenericWebhookEvent"] ∧
      out.result.success = true ∧ out.result.errors = [] := by
  refine ⟨rfl, ?_⟩
  obtain ⟨r, hr, hre⟩ := processEvent_all_ok bus (genericFromRaw raw hd) hok
  have hme : matchedEvents bus raw hd = ([genericFromRaw raw hd], ["GenericWebhookEvent"]) := by
    simp [matchedEvents, hnone]
  simp only [dispatchRaw, hme]
  simp only [dispatchLoop, hr]
  refine ⟨_, rfl, ?_, ?_, ?_⟩ <;> simp [hre]

/-- C5: if the bus does not swallow exceptions, the first raising or
timed-out handler aborts the dispatch pass and its exception propagates to the
caller, of dispatch_event and of dispatch_raw alike; if it does swallow, every
handler failure is captured as an outcome dict contributing one entry to the
error list and the pass completes over the whole handler set. -/
theorem c5_swallow_exceptions_semantics (bus : Bus) (ev : EventInstance) :
    (bus.swallowExceptions = false →
      (∀ pre bad post em,
        collectHandlers bus ev = pre ++ bad :: post →
        (∀ h ∈ pre, h.behavior = HandlerBehavior.ok) →
        failEntry bad = some em →
        dispatchEvent bus ev = Except.error em) ∧
      (∀ m raw hd res em,
        dispatchLoop bus (matchedEvents bus raw hd).1
            { raw_data := some raw
              headers := hd
              matched_patterns := (matchedEvents bus raw hd).2 } = (res, some em) →
        dispatchRaw bus m raw hd = Except.error em)) ∧
    (bus.swallowExceptions = true →
      ∃ r, dispatchEvent bus ev = Except.ok r ∧
        r.handler_results = (collectHandlers bus ev).map handlerDict ∧
        r.errors = (collectHandlers bus ev).filterMap failEntry) := by
  constructor
  · intro hsw
    constructor
    · intro pre bad post em hch hpre hbad
      have hne : collectHandlers bus ev ≠ [] := by simp [hch]
      have hrun : runHandlers bus.swallowExceptions (collectHandlers bus ev)
          = Except.error em := by
        rw [hsw, hch]
        exact runHandlers_first_error pre bad post em hpre hbad
      exact processEvent_run_error bus ev em hne hrun
    · intro m raw hd res em hloop
      simp only [dispatchRaw]
      rw [hloop]
      simp [hsw]
  · intro hsw
    by_cases hch : collectHandlers bus ev = []
    · refine ⟨_, processEvent_no_handlers bus ev hch, ?_, ?_⟩ <;> simp [hch]
    · refine ⟨_, processEvent_swallow bus ev hsw hch, rfl, rfl⟩

/-- C6 (amended): the dispatch match pass evaluates every registered schema in
registration order; a schema whose predicate raises or rejects, or whose
constructor fails after the predicate accepted, contributes nothing — it is
only logged, and no validation-error statistic changes — while the remaining
schemas are still evaluated, and the matched list preserves registration
order. -/
theorem c6_match_pass_order_and_isolation (raw : Payload) (hd : Headers) :
    (∀ classes, matchPatterns classes raw hd
        = classes.filterMap (fun cls => attemptMatch cls raw hd)) ∧
    (∀ pre bad post, attemptMatch bad raw hd = none →
      matchPatterns (pre ++ bad :: post) raw hd
        = matchPatterns pre raw hd ++ matchPatterns post raw hd) ∧
    (∀ reg, (matchPatternsSt reg raw hd).2 = reg) := by
  have hfm : ∀ classes, matchPatterns classes raw hd
      = classes.filterMap (fun cls => attemptMatch cls raw hd) := by
    intro classes
    induction classes with
    | nil => rfl
    | cons cls rest ih =>
      cases ha : attemptMatch cls raw hd <;>
        simp [matchPatterns, List.filterMap_cons, ha, ih]
  refine ⟨hfm, ?_, fun reg => rfl⟩
  intro pre bad post hbad
  rw [hfm, hfm, hfm, List.filterMap_append, List.filterMap_cons, hbad]

/-- C7 (amended): a dispatch_raw call that returns updates the cumulative
metrics as the code does: total events +1; successful events + the
matched-instance count (even when the result carries errors); failed events +1
exactly when the merged error list is non-empty (never by the match count);
and the handler execution, failure and timeout counters never change. -/
theorem c7_metrics_per_dispatch (bus : Bus) (m : Metrics) (raw : Payload) (hd : Headers)
    (out : DispatchOutput) (hm : bus.enableMetrics = true)
    (hout : dispatchRaw bus m raw hd = Except.ok out) :
    out.metrics.total_events = m.total_events + 1 ∧
    out.metrics.successful_events
      = m.successful_events + (matchedEvents bus raw hd).1.length ∧
    out.metrics.failed_events
      = m.failed_events + (if out.result.errors.isEmpty then 0 else 1) ∧
    out.metrics.handler_executions = m.handler_executions ∧
    out.metrics.handler_failures = m.handler_failures ∧
    out.metrics.handler_timeouts = m.handler_timeouts := by
  simp only [dispatchRaw, hm, if_true] at hout
  rcases hloop : dispatchLoop bus (matchedEvents bus raw hd).1
      { raw_data := some raw
        headers := hd
        matched_patterns := (matchedEvents bus raw hd).2 } with ⟨res, oe⟩
  rw [hloop] at hout
  cases oe with
  | none =>
    cases hout
    refine ⟨rfl, rfl, rfl, rfl, rfl, rfl⟩
  | some e =>
    have hsw := dispatchLoop_error_not_swallow bus _ _ res e hloop
    rw [hsw] at hout
    cases hout

/-- C8 (amended): every declared trigger method that fires — public name,
non-empty activity set containing the activity of the instance or "any" — and
does not itself fail contributes its qualified name to the triggered list,
unaffected by failures of sibling triggers; and only such methods contribute
entries. -/
theorem c8_triggers_isolated_and_named (ev : EventInstance) :
    (∀ m ∈ ev.triggerMethods, triggerFires (getActivity ev) m = true → m.fails = false →
      (ev.className ++ "." ++ m.name) ∈ processTriggers ev) ∧
    (∀ s ∈ processTriggers ev, ∃ m, m ∈ ev.triggerMethods ∧
      triggerFires (getActivity ev) m = true ∧ m.fails = false ∧
      s = ev.className ++ "." ++ m.name) :=
  ⟨fun m hm hf hnf =>
      processTriggersList_mem ev.className (getActivity ev) ev.triggerMethods m hm hf hnf,
    fun s hs =>
      processTriggersList_mem_rev ev.className (getActivity ev) ev.triggerMethods s hs⟩

/-- C9: the base-class predicate and constructor are the same operation — for
every schema constructor, payload and headers, matches returns True exactly
when from_raw succeeds without raising. -/
theorem c9_matches_iff_from_raw_succeeds
    (fromRaw : Payload → Headers → Except Exc EventInstance)
    (raw : Payload) (hd : Headers) :
    matchesBase fromRaw raw hd = Except.ok true ↔
      ∃ ev, fromRaw raw hd = Except.ok ev := by
  cases h : fromRaw raw hd with
  | ok ev => simp [matchesBase, h]
  | error e =>
    by_cases hc : e.catchable <;> simp [matchesBase, h, hc]

/-- C10: get_activity always returns a value, a non-empty string: the first
non-empty string among the probed payload fields in their fixed order, else
the class name lowercased; and the result depends only on the payload dict and
the class name. -/
theorem c10_getActivity_total_nonempty (ev : EventInstance) (h : ev.className ≠ "") :
    ∃ s, getActivity ev = some s ∧ s ≠ "" ∧
      s = (firstActivityField ev.payloadFields activityFieldNames).getD
            (pyLower ev.className) ∧
      ∀ ev2 : EventInstance, ev2.className = ev.className →
        ev2.payloadFields = ev.payloadFields → getActivity ev2 = getActivity ev := by
  cases hf : firstActivityField ev.payloadFields activityFieldNames with
  | some v =>
    refine ⟨v, ?_, firstActivityField_nonempty _ _ v hf, ?_, ?_⟩
    · simp [getActivity, hf]
    · simp [hf]
    · intro ev2 h1 h2
      simp [getActivity, h1, h2]
  | none =>
    refine ⟨pyLower ev.className, ?_, pyLower_ne_empty _ h, ?_, ?_⟩
    · simp [getActivity, hf]
    · simp [hf]
    · intro ev2 h1 h2
      simp [getActivity, h1, h2]

/-- C6 counterexample: a schema whose predicate raises is skipped by the
dispatch match pass, but no validation-error counter changes —
`_match_patterns` (bus.py 185-192) only logs and never writes the registry
statistics, so the count for the raising class stays zero, against the claim
that the failure is counted as a validation error. -/
theorem c6_counterexample_no_validation_error_count :
    (matchPatternsSt regThrowy [("x", Val.other)] []).1 = [] ∧
    ¬ (0 < validationErrorCount (matchPatternsSt regThrowy [("x", Val.other)] []).2 "Throwy") := by
  exact ⟨rfl, by decide⟩

/-- C8 counterexample: a trigger declared on a method whose name starts with
an underscore is skipped by the member walk (events.py 206-207) even though
its activity set contains "any" and the invocation would succeed, so it is
never invoked and never recorded — against the claim that every declared
trigger method with a matching activity set is invoked. -/
theorem c8_counterexample_private_trigger_not_invoked :
    triggerFires (getActivity evHiddenTrigger)
        { name := "_hidden", activities := ["any"], fails := false } = false ∧
    processTriggers evHiddenTrigger = [] ∧
    ("NoteEvent" ++ "." ++ "_hidden") ∉ processTriggers evHiddenTrigger := by
  refine ⟨rfl, rfl, ?_⟩
  rw [show processTriggers evHiddenTrigger = [] from rfl]
  exact List.not_mem_nil _

/-- C7 counterexample: a dispatch over two matched instances whose only
handler raises leaves the handler execution, failure and timeout counters at
zero and adds only one failed event, where the claim demands per-outcome
handler counter increments (two failures) and a failed-event increment equal
to the match count (two). -/
theorem c7_counterexample_handler_counters_never_move :
    ∃ out, dispatchRaw busTwoMatch { } [("x", Val.other)] [] = Except.ok out ∧
      out.result.handler_results.length = 2 ∧
      out.result.errors = ["boom", "boom"] ∧
      out.metrics.total_events = 1 ∧
      out.metrics.successful_events = 2 ∧
      out.metrics.failed_events = 1 ∧
      out.metrics.failed_events ≠ 2 ∧
      out.metrics.handler_executions = 0 ∧
      out.metrics.handler_failures = 0 ∧
      out.metrics.handler_timeouts = 0 := by
  refine ⟨_, rfl, rfl, rfl, rfl, rfl, rfl, by decide, rfl, rfl, rfl⟩

/-- Witness for C2: a fresh default bus with an empty registry and no
handlers. -/
theorem c2_generic_fallback_witness :
    genericMatches [("unexpected", Val.str "data")] [] = Except.ok true ∧
    ∃ out, dispatchRaw { } { } [("unexpected", Val.str "data")] [] = Except.ok out ∧
      out.result.matched_patterns = ["GenericWebhookEvent"] ∧
      out.result.success = true ∧ out.result.errors = [] :=
  c2_generic_fallback { } { } [("unexpected", Val.str "data")] [] rfl
    (by intro h hh; cases hh)

/-- Witness for C5: a non-swallowing bus whose only handler raises "boom",
and a swallowing bus with one raising and one completing handler. -/
theorem c5_swallow_exceptions_semantics_witness :
    dispatchEvent busNoSwallow
        { className := "Ev", payloadFields := [], triggerMethods := [] }
      = Except.error "boom" ∧
    dispatchRaw busNoSwallow { } [("x", Val.other)] [] = Except.error "boom" ∧
    (∃ r, dispatchEvent busSwallow
          { className := "Ev2", payloadFields := [], triggerMethods := [] }
        = Except.ok r ∧
      r.handler_results =
        (collectHandlers busSwallow
          { className := "Ev2", payloadFields := [], triggerMethods := [] }).map handlerDict ∧
      r.errors =
        (collectHandlers busSwallow
          { className := "Ev2", payloadFields := [], triggerMethods := [] }).filterMap failEntry) := by
  refine ⟨?_, ?_, ?_⟩
  · exact ((c5_swallow_exceptions_semantics busNoSwallow
        { className := "Ev", payloadFields := [], triggerMethods := [] }).1 rfl).1
      [] { name := "bad_handler", behavior := HandlerBehavior.exc "boom" } [] "boom"
      rfl (by intro h hh; cases hh) rfl
  · exact ((c5_swallow_exceptions_semantics busNoSwallow
        { className := "Ev", payloadFields := [], triggerMethods := [] }).1 rfl).2
      { } [("x", Val.other)] []
      { raw_data := some [("x", Val.other)]
        headers := []
        matched_patterns := ["GenericWebhookEvent"] }
      "boom" rfl
  · exact (c5_swallow_exceptions_semantics busSwallow
      { className := "Ev2", payloadFields := [], triggerMethods := [] }).2 rfl

/-- Witness for C6: the skip equation applied to the raising schema. -/
theorem c6_match_pass_witness :
    matchPatterns ([] ++ schemaThrowy :: []) [("x", Val.other)] []
      = matchPatterns [] [("x", Val.other)] []
          ++ matchPatterns [] [("x", Val.other)] [] :=
  (c6_match_pass_order_and_isolation [("x", Val.other)] []).2.1 [] schemaThrowy [] rfl

/-- Witness for C7: the metrics delta of one generic dispatch on a fresh
default bus. -/
theorem c7_metrics_per_dispatch_witness :
    sampleOut.metrics.total_events = ({ } : Metrics).total_events + 1 ∧
    sampleOut.metrics.successful_events
      = ({ } : Metrics).successful_events
          + (matchedEvents { } [("a", Val.other)] []).1.length ∧
    sampleOut.metrics.failed_events
      = ({ } : Metrics).failed_events
          + (if sampleOut.result.errors.isEmpty then 0 else 1) ∧
    sampleOut.metrics.handler_executions = ({ } : Metrics).handler_executions ∧
    sampleOut.metrics.handler_failures = ({ } : Metrics).handler_failures ∧
    sampleOut.metrics.handler_timeouts = ({ } : Metrics).handler_timeouts :=
  c7_metrics_per_dispatch { } { } [("a", Val.other)] [] sampleOut rfl rfl

/-- Witness for C8: the succeeding trigger is invoked and recorded although a
failing sibling precedes it. -/
theorem c8_triggers_witness :
    ("MemoEvent" ++ "." ++ "good_trigger") ∈ processTriggers evTriggers :=
  (c8_triggers_isolated_and_named evTriggers).1
    { name := "good_trigger", activities := ["create"], fails := false }
    (by decide) (by rfl) rfl

/-- Witness for C10: a concrete instance with an action field. -/
theorem c10_getActivity_witness :
    ∃ s, getActivity
        { className := "PushEvent"
          payloadFields := [("action", Val.str "opened")]
          triggerMethods := [] } = some s ∧ s ≠ "" ∧
      s = (firstActivityField
            ({ className := "PushEvent"
               payloadFields := [("action", Val.str "opened")]
               triggerMethods := [] } : EventInstance).payloadFields
            activityFieldNames).getD
            (pyLower "PushEvent") ∧
      ∀ ev2 : EventInstance, ev2.className = "PushEvent" →
        ev2.payloadFields = [("action", Val.str "opened")] →
        getActivity ev2 = getActivity
          { className := "PushEvent"
            payloadFields := [("action", Val.str "opened")]
            triggerMethods := [] } :=
  c10_getActivity_total_nonempty
    { className := "PushEvent"
      payloadFields := [("action", Val.str "opened")]
      triggerMethods := [] } (by decide)

end Webhooky
